import Mathlib

/-!
Verification development for the Adversarial Fact Checker repository
(`app/pipeline.py`, `app/models.py`, `app/llm.py`, `app/agents/*.py`).

The Python code is shallowly embedded: pure string manipulation is translated
to Lean functions over `String` (Lean 4.14 strings are lists of characters,
matching Python's sequence-of-code-points model), dynamically typed JSON
values become the inductive `PyVal`, fallible code returns `Except String`
(the error carries the exception message), and the outcomes of external calls
(model invocations, network searches, the asyncio clock) are passed in as
explicit environment values, since the repository's own control flow is what
is under verification.
-/

/-! ## Python string primitives

Helpers mirroring the Python `str` methods the repository uses.  They are
defined from scratch (rather than through Lean's `String` API) so that every
definition is executable and its semantics visibly matches Python's. -/

/-- Python `str.strip()`: remove whitespace from both ends. -/
def pyStrip (s : String) : String :=
  ⟨(s.data.dropWhile Char.isWhitespace).reverse.dropWhile Char.isWhitespace |>.reverse⟩

/-- Python `str.lower()` (ASCII case mapping suffices for the code's
case-insensitive query comparison). -/
def pyLower (s : String) : String :=
  ⟨s.data.map Char.toLower⟩

/-- Python `str.upper()` (ASCII case mapping suffices for the arbiter's
A–F membership test). -/
def pyUpper (s : String) : String :=
  ⟨s.data.map Char.toUpper⟩

/-- Core of `pyReplace`: replace each non-overlapping occurrence of `pat`
(nonempty) by `rep`, scanning left to right, as Python `str.replace` does.
The recursion is driven by a fuel argument (structural, so that concrete
instances reduce inside the kernel); each step consumes at least one
character, so fuel equal to the scanned list's length is always enough. -/
def pyReplaceAux (pat rep : List Char) : Nat → List Char → List Char
  | 0, l => l
  | _ + 1, [] => []
  | fuel + 1, c :: rest =>
    if pat ≠ [] ∧ pat.isPrefixOf (c :: rest) then
      rep ++ pyReplaceAux pat rep fuel (rest.drop (pat.length - 1))
    else
      c :: pyReplaceAux pat rep fuel rest

/-- Python `str.replace(pat, rep)` for a nonempty pattern (the repository only
replaces the nonempty patterns `"` and the markdown code fences). -/
def pyReplace (s pat rep : String) : String :=
  ⟨pyReplaceAux pat.data rep.data s.data.length s.data⟩

/-- Digits-only parse used by `pyToInt` below: `some n` when `cs` is a
nonempty run of ASCII digits. -/
def digitsToNat? (cs : List Char) : Option Nat :=
  if cs ≠ [] ∧ cs.all Char.isDigit then
    some (cs.foldl (fun n c => n * 10 + (c.toNat - 48)) 0)
  else none

/-! ## Dynamically typed JSON values

`json.loads` hands the arbiter an arbitrary JSON value; `PyVal` models the
values it can produce (JSON numbers are modeled as integers; a fractional
number fed to Python's `int()` truncates and lands in the same clamping logic
proved below, so the score-domain results are unaffected). -/

/-- A Python value as decoded from JSON. -/
inductive PyVal where
  | pnull : PyVal
  | pbool : Bool → PyVal
  | pint : Int → PyVal
  | pstr : String → PyVal
  | plist : List PyVal → PyVal
  | pdict : List (String × PyVal) → PyVal

mutual

/-- Python `repr` of a JSON-decoded value, used by `str()` on containers
(string quoting follows Python's single-quote default; escaping inside
nested strings is not modeled, which no claim's test can distinguish). -/
def pyRepr : PyVal → String
  | .pnull => "None"
  | .pbool true => "True"
  | .pbool false => "False"
  | .pint n => toString n
  | .pstr s => "'" ++ s ++ "'"
  | .plist xs => "[" ++ String.intercalate ", " (pyReprList xs) ++ "]"
  | .pdict kvs => "\x7b" ++ String.intercalate ", " (pyReprKVs kvs) ++ "\x7d"

/-- `pyRepr` mapped over a list of values. -/
def pyReprList : List PyVal → List String
  | [] => []
  | v :: vs => pyRepr v :: pyReprList vs

/-- `pyRepr` mapped over the entries of a dict. -/
def pyReprKVs : List (String × PyVal) → List String
  | [] => []
  | (k, v) :: kvs => ("'" ++ k ++ "': " ++ pyRepr v) :: pyReprKVs kvs

end

/-- Python `str()` of a JSON-decoded value. -/
def pyStr : PyVal → String
  | .pstr s => s
  | v => pyRepr v

/-- Python `d.get(key, default)`: succeeds on a dict (first binding of the
key, else the default); on any other value `.get` raises `AttributeError`. -/
def PyVal.get : PyVal → String → PyVal → Except String PyVal
  | .pdict kvs, k, d =>
      .ok ((((kvs.find? (fun kv => kv.1 == k)).map Prod.snd)).getD d)
  | _, _, _ => .error "AttributeError: object has no attribute get"

/-- Python `int(v)` on a JSON-decoded value: identity on ints, `True`/`False`
to 1/0, a stripped optionally-signed digit string parses, and every other
value raises (`ValueError`/`TypeError`). -/
def pyToInt : PyVal → Except String Int
  | .pint n => .ok n
  | .pbool b => .ok (if b then 1 else 0)
  | .pstr s =>
    match (pyStrip s).data with
    | '-' :: rest =>
      match digitsToNat? rest with
      | some n => .ok (-(n : Int))
      | none => .error "ValueError: invalid literal for int()"
    | '+' :: rest =>
      match digitsToNat? rest with
      | some n => .ok ((n : Int))
      | none => .error "ValueError: invalid literal for int()"
    | t =>
      match digitsToNat? t with
      | some n => .ok ((n : Int))
      | none => .error "ValueError: invalid literal for int()"
  | _ => .error "TypeError: int() argument must not be a container or None"

/-! ## Arbiter (`app/agents/arbiter.py`, lines 82–104)

`run_arbiter` builds a prompt, awaits `call_llm`, strips markdown fences from
the response, parses it as JSON, and clamps the extracted score and
reliability grade.  The response text and `json.loads` are external, so the
parse step is factored through an oracle: `cleanArbiterResponse` is the exact
fence-stripping, and `arbiterFromParse` is the exact post-parse extraction,
taking the outcome of `json.loads` (a value, or the exception it raised). -/

/-- Fence stripping applied to the model response before `json.loads`
(arbiter.py line 82): `response.replace("```json", "").replace("```", "").strip()`. -/
def cleanArbiterResponse (response : String) : String :=
  pyStrip (pyReplace (pyReplace response "```json" "") "```" "")

/-- Default tuple returned by the `except` handler at arbiter.py line 104. -/
def arbiterParseFailure : Int × PyVal × String × PyVal :=
  (6, .pstr "Error parsing Arbiter response", "F", .pstr "")

/-- Extraction and clamping of `run_arbiter`'s result from the outcome of
`json.loads` (arbiter.py lines 84–104): `score = int(data.get('score', 6))`
clamped to `[1, 6]`, `justification = data.get('justification', 'Parse
Error')`, `reliability = str(data.get('source_reliability_score',
'F')).upper().strip()` clamped into `A`–`F`, and
`reliability_justification = data.get('source_reliability_justification',
'')`; any exception along the way (parse failure, non-dict value, an
unconvertible score) lands in the handler returning `arbiterParseFailure`. -/
def arbiterFromParse (outcome : Except String PyVal) : Int × PyVal × String × PyVal :=
  match outcome with
  | .error _ => arbiterParseFailure
  | .ok data =>
    match data.get "score" (.pint 6) with
    | .error _ => arbiterParseFailure
    | .ok scoreV =>
      match pyToInt scoreV with
      | .error _ => arbiterParseFailure
      | .ok score0 =>
        let score : Int := if score0 < 1 ∨ 6 < score0 then 6 else score0
        match data.get "justification" (.pstr "Parse Error") with
        | .error _ => arbiterParseFailure
        | .ok justification =>
          match data.get "source_reliability_score" (.pstr "F") with
          | .error _ => arbiterParseFailure
          | .ok relV =>
            let rel0 := pyStrip (pyUpper (pyStr relV))
            let reliability :=
              if ["A", "B", "C", "D", "E", "F"].contains rel0 then rel0 else "F"
            match data.get "source_reliability_justification" (.pstr "") with
            | .error _ => arbiterParseFailure
            | .ok relJust => (score, justification, reliability, relJust)

/-- `run_arbiter`'s full response handling: fence stripping composed with the
parse oracle `loads` (standing for Python's `json.loads`) and the extraction
above. -/
def arbiterHandleResponse (loads : String → Except String PyVal) (response : String) :
    Int × PyVal × String × PyVal :=
  arbiterFromParse (loads (cleanArbiterResponse response))

/-! ## Model invocation gateway (`app/llm.py`)

`call_llm` dispatches on the provider name and wraps every awaited external
call in `try`/`except` with a 30 s timeout, returning error strings instead
of raising.  The outcomes of the three external calls (Gemini generate,
Azure Responses API, Azure Chat Completions) are supplied by an `LlmEnv`. -/

/-- Per-call timeout (llm.py line 12). -/
def LLM_TIMEOUT_SECONDS : Nat := 30

/-- The flat configuration mapping (`config: Dict[str, Any]`), with the
string values the gateway reads. -/
def LlmConfig := List (String × String)

/-- Python `config.get(key)`. -/
def cfgGet (config : LlmConfig) (key : String) : Option String :=
  (List.find? (fun kv => kv.1 == key) config).map Prod.snd

/-- Python truthiness of `config.get(key)`: present and nonempty
(`all(config.get(k) for k in required)` treats `""` as missing). -/
def cfgTruthy (config : LlmConfig) (key : String) : Bool :=
  match cfgGet config key with
  | some s => s ≠ ""
  | none => false

/-- Outcome of one awaited external call: the text produced on success, a
timeout of the `asyncio.wait_for` wrapper, or a raised exception's message. -/
inductive CallOutcome where
  | success : String → CallOutcome
  | timeout : CallOutcome
  | failure : String → CallOutcome

/-- Outcomes of the three external calls one `call_llm` invocation can make.
For Gemini, `success t` carries `response.text or ""`; for the Azure
Responses API, `success t` carries `_extract_responses_text(result)` (the
SDK-shape-tolerant extraction of llm.py lines 66–90, applied to an opaque
response object); for Chat Completions, `success t` carries
`chat_result.choices[0].message.content or ""`. -/
structure LlmEnv where
  gemini : CallOutcome
  azureResponses : CallOutcome
  azureChat : CallOutcome

/-- Python `needle in hay` on strings. -/
def strContains (hay needle : String) : Bool :=
  (List.range (hay.data.length + 1)).any
    (fun i => needle.data.isPrefixOf (hay.data.drop i))

/-- The required-keys check of `_call_azure` (llm.py lines 149–150). -/
def azureRequiredOk (config : LlmConfig) : Bool :=
  ["azure_endpoint", "azure_key", "azure_version", "azure_deployment"].all
    (fun k => cfgTruthy config k)

/-- The Chat Completions fallback of `_call_azure` (llm.py lines 191–216). -/
def azureChatFallback (env : LlmEnv) : String :=
  match env.azureChat with
  | .success t => t
  | .timeout =>
      "Azure Error: Request timed out after " ++ toString LLM_TIMEOUT_SECONDS ++ "s"
  | .failure e => "Azure Error: " ++ e

/-- `_call_azure` (llm.py lines 147–216): required-config check, Responses
API attempt (returning its text when nonempty after `.strip()`, falling
through when empty), the GPT-5 permanent-incompatibility early return, and
the Chat Completions fallback. -/
def call_azure (config : LlmConfig) (env : LlmEnv) : String :=
  if ¬ azureRequiredOk config then
    "Error: Missing Azure configuration details."
  else
    let deployment := (cfgGet config "azure_deployment").getD ""
    match env.azureResponses with
    | .success t =>
      let text := pyStrip t
      if text ≠ "" then text else azureChatFallback env
    | .timeout =>
        "Azure Error: Request timed out after " ++ toString LLM_TIMEOUT_SECONDS ++ "s"
    | .failure e =>
      if strContains e
            "Responses API is enabled only for api-version 2025-03-01-preview and later"
          ∧ (pyLower deployment).startsWith "gpt-5" then
        "Azure Error: GPT-5 deployment requires AZURE_OPENAI_API_VERSION=2025-03-01-preview or later."
      else azureChatFallback env

/-- `_call_gemini` (llm.py lines 113–144): key check, then the wrapped
external call. -/
def call_gemini (config : LlmConfig) (env : LlmEnv) : String :=
  if ¬ cfgTruthy config "gemini_key" then
    "Error: Gemini API Key missing."
  else
    match env.gemini with
    | .success t => t
    | .timeout =>
        "Gemini Error: Request timed out after " ++ toString LLM_TIMEOUT_SECONDS ++ "s"
    | .failure e => "Gemini Error: " ++ e

/-- `call_llm` (llm.py lines 97–110): provider dispatch.  The prompt does not
influence the control flow; it is kept for signature fidelity. -/
def call_llm (_prompt provider : String) (config : LlmConfig) (env : LlmEnv) : String :=
  if provider = "Google Gemini" then call_gemini config env
  else if provider = "Microsoft Azure" then call_azure config env
  else "Error: Invalid Provider"

/-- The result text is one the environment's successful external calls could
have produced (llm.py returns it verbatim for Gemini and Chat Completions,
stripped and nonempty for the Responses API). -/
def llmSuccessText (env : LlmEnv) (r : String) : Prop :=
  env.gemini = CallOutcome.success r ∨
  (∃ t, env.azureResponses = CallOutcome.success t ∧ r = pyStrip t ∧ pyStrip t ≠ "") ∨
  env.azureChat = CallOutcome.success r

/-- The result text is a gateway failure string: it begins with one of the
recognizable prefixes of llm.py. -/
def llmErrorTagged (r : String) : Prop :=
  (∃ t, r = "Error:" ++ t) ∨ (∃ t, r = "Gemini Error:" ++ t) ∨
  (∃ t, r = "Azure Error:" ++ t)

/-! ## Evidence aggregator (`app/agents/web_search.py`)

`run_web_search_agent` derives a search query through one `call_llm`
invocation (falling back to the claim text only when that call *raises*),
builds up to two query candidates, dispatches the backend searches, and
merges the gathered results with URL deduplication and a fixed cap. -/

/-- Cap on query candidates (web_search.py line 24). -/
def MAX_QUERIES_PER_CLAIM : Nat := 2

/-- Cap on merged results (web_search.py line 25). -/
def MAX_RESULTS_RETURNED : Nat := 12

/-- The query-derivation prompt (web_search.py lines 169–180). -/
def searchQueryPrompt (claim : String) : String :=
  "\n    Task: Convert the following factual claim into a simple, effective web search query to verify it.\n\n    Rules:\n    - Strip any framing like \"The webpage states\", \"The report says\", \"According to the article\" etc.\n    - Focus on the core factual assertion and key entities/numbers/dates.\n    - Use plain keywords, not full sentences.\n    - Do NOT include words like \"webpage\", \"article\", \"report\", \"states\", \"claims\".\n\n    Claim: \"" ++ claim ++ "\"\n    Output: Return ONLY the search query string. No quotes, no explanations.\n    "

/-- Query derivation (web_search.py lines 181–187): on a *returned* response
the query is the response stripped with double quotes removed; the
`except` fallback to the raw claim text fires only when the awaited call
raised an exception. -/
def deriveSearchQuery (claim : String) (llmOutcome : Except String String) : String :=
  match llmOutcome with
  | .ok resp => pyReplace (pyStrip resp) "\"" ""
  | .error _ => claim

/-- Query-candidate construction (web_search.py lines 190–193): the stripped
claim is appended as a second candidate when it is nonempty and differs
case-insensitively from the derived query, then the list is capped at
`MAX_QUERIES_PER_CLAIM`. -/
def queryCandidates (claim searchQuery : String) : List String :=
  let cands :=
    if pyStrip claim ≠ "" ∧ pyLower (pyStrip claim) ≠ pyLower (pyStrip searchQuery) then
      [searchQuery, pyStrip claim]
    else [searchQuery]
  cands.take MAX_QUERIES_PER_CLAIM

/-- The queries handed to the search backends for one claim: each candidate
is dispatched to both the DuckDuckGo HTML backend and the Wikipedia backend
(web_search.py lines 200–203). -/
def dispatchedQueries (claim : String) (llmOutcome : Except String String) : List String :=
  queryCandidates claim (deriveSearchQuery claim llmOutcome)

/-- A backend search result (the dicts built at web_search.py lines 98 and
119–123, which always carry a title, url and body). -/
structure SearchResult where
  title : String
  url : String
  body : String

/-- One gathered task outcome: `(label, query, results)` as returned by
`_run_search_async`, or (with `return_exceptions=True`) a raised exception. -/
def TaskResult := String × String × List SearchResult

/-- The per-result rendering (web_search.py line 223):
`f"[{label}] {title}: {body} (Source: {url})"`. -/
def formatResult (label : String) (r : SearchResult) : String :=
  "[" ++ label ++ "] " ++ r.title ++ ": " ++ r.body ++ " (Source: " ++ r.url ++ ")"

/-- The inner result loop (web_search.py lines 217–225): append each result
with a nonempty, unseen URL, record the URL as seen, and break as soon as the
aggregate reaches `MAX_RESULTS_RETURNED`.  Returns the final
`(seen_urls, aggregated_results)` state. -/
def aggInner (label : String) : List SearchResult → List String → List String →
    List String × List String
  | [], seen, acc => (seen, acc)
  | r :: rest, seen, acc =>
    if r.url ≠ "" ∧ r.url ∉ seen then
      let acc2 := acc ++ [formatResult label r]
      if MAX_RESULTS_RETURNED ≤ acc2.length then (r.url :: seen, acc2)
      else aggInner label rest (r.url :: seen) acc2
    else aggInner label rest seen acc

/-- The outer task loop (web_search.py lines 212–227): skip task outcomes
that are exceptions, run the inner loop on each result list, and break when
the cap is reached. -/
def aggOuter : List (Except String TaskResult) → List String → List String → List String
  | [], _, acc => acc
  | .error _ :: rest, seen, acc => aggOuter rest seen acc
  | .ok (label, _, rs) :: rest, seen, acc =>
    let sa := aggInner label rs seen acc
    if MAX_RESULTS_RETURNED ≤ sa.2.length then sa.2
    else aggOuter rest sa.1 sa.2

/-- The aggregation of one claim's gathered search tasks, started from the
empty `seen_urls` set and empty `aggregated_results` list
(web_search.py lines 209–227). -/
def aggregateSearchResults (tasks : List (Except String TaskResult)) : List String :=
  aggOuter tasks [] []

/-- Discovery order: the task results flattened in per-task order, with
exception outcomes skipped. -/
def flattenTasks : List (Except String TaskResult) → List (String × SearchResult)
  | [] => []
  | .error _ :: rest => flattenTasks rest
  | .ok (label, _, rs) :: rest => rs.map (fun r => (label, r)) ++ flattenTasks rest

/-- Specification-side deduplication: keep the first occurrence of each
nonempty URL not yet in `seen`, preserving order. -/
def dedupByUrl : List String → List (String × SearchResult) → List (String × SearchResult)
  | _, [] => []
  | seen, (label, r) :: rest =>
    if r.url ≠ "" ∧ r.url ∉ seen then (label, r) :: dedupByUrl (r.url :: seen) rest
    else dedupByUrl seen rest

/-- Single-loop form of the aggregation over the flattened discovery-order
list; proved below to agree with the two-loop source translation. -/
def aggFlat : List (String × SearchResult) → List String → List String → List String
  | [], _, acc => acc
  | (label, r) :: rest, seen, acc =>
    if r.url ≠ "" ∧ r.url ∉ seen then
      let acc2 := acc ++ [formatResult label r]
      if MAX_RESULTS_RETURNED ≤ acc2.length then acc2
      else aggFlat rest (r.url :: seen) acc2
    else aggFlat rest seen acc

/-! ## Data model and single-claim pipeline (`app/models.py`, `app/pipeline.py`)

`ClaimAnalysis` is the pydantic record of models.py (all seven fields; it has
no reliability fields).  `process_single_claim` runs the three stages inside
one `try`, and `model_dump()` serializes the record as an ordered key/value
list.  The five awaited agent results are supplied by a `StageEnv`, each as
the value returned or the exception raised. -/

/-- A dumped field value: pydantic serializes the six string fields and the
integer score. -/
inductive DumpVal where
  | ds : String → DumpVal
  | di : Int → DumpVal
deriving DecidableEq

/-- `ClaimAnalysis` (models.py lines 4–11): exactly these seven fields, with
these defaults.  The model has no `source_reliability_score` or
`source_reliability_justification` field. -/
structure ClaimAnalysis where
  claim : String
  report_evidence : String := ""
  web_evidence : String := ""
  devils_advocate_summary : String := ""
  advocate_summary : String := ""
  arbiter_score : Int := 6
  arbiter_justification : String := ""

/-- `model_dump()`: the record as an ordered field/value list, in declaration
order, as pydantic produces it. -/
def ClaimAnalysis.model_dump (a : ClaimAnalysis) : List (String × DumpVal) :=
  [("claim", .ds a.claim),
   ("report_evidence", .ds a.report_evidence),
   ("web_evidence", .ds a.web_evidence),
   ("devils_advocate_summary", .ds a.devils_advocate_summary),
   ("advocate_summary", .ds a.advocate_summary),
   ("arbiter_score", .di a.arbiter_score),
   ("arbiter_justification", .ds a.arbiter_justification)]

/-- The keys of a dumped record. -/
def dumpKeys (d : List (String × DumpVal)) : List String := d.map Prod.fst

/-- Outcomes of the five awaited agent calls of one `process_single_claim`
run: the returned value, or the message of the exception that reached the
pipeline's `try` (the stage-1 and stage-2 `asyncio.gather` propagates the
first exception of its pair; the embedding fixes the positional order, which
only determines *which* message reaches the handler). -/
structure StageEnv where
  reportEvidence : Except String String
  webEvidence : Except String String
  devils : Except String String
  advocate : Except String String
  arbiter : Except String (Int × PyVal × String × PyVal)

/-- The tuple unpacking at pipeline.py line 59, `score, justification =
await run_arbiter(...)`, applied to `run_arbiter`'s actual return value — the
4-tuple built at arbiter.py lines 100 and 104.  Unpacking a 4-tuple into two
targets raises `ValueError: too many values to unpack (expected 2)` in
Python, so this translation is the constant error. -/
def unpackPair4 (_t : Int × PyVal × String × PyVal) : Except String (Int × String) :=
  .error "too many values to unpack (expected 2)"

/-- The error record built by the `except` handler of `process_single_claim`
(pipeline.py lines 70–74): default fields except the claim, score 6 and the
prefixed justification. -/
def errorRecord (claim msg : String) : ClaimAnalysis :=
  { claim := claim, arbiter_score := 6,
    arbiter_justification := "Processing Error: " ++ msg }

/-- `process_single_claim` (pipeline.py lines 20–75): stage 1 (evidence +
web search), stage 2 (debate), stage 3 (arbiter, whose 4-tuple is unpacked
into two targets), all inside one `try` whose handler returns
`errorRecord(claim, str(e)).model_dump()`. -/
def process_single_claim (claim : String) (env : StageEnv) : List (String × DumpVal) :=
  match env.reportEvidence with
  | .error e => (errorRecord claim e).model_dump
  | .ok report_evidence =>
    match env.webEvidence with
    | .error e => (errorRecord claim e).model_dump
    | .ok web_evidence =>
      match env.devils with
      | .error e => (errorRecord claim e).model_dump
      | .ok devils_summary =>
        match env.advocate with
        | .error e => (errorRecord claim e).model_dump
        | .ok advocate_summary =>
          match env.arbiter with
          | .error e => (errorRecord claim e).model_dump
          | .ok arb =>
            match unpackPair4 arb with
            | .error e => (errorRecord claim e).model_dump
            | .ok (score, justification) =>
              ClaimAnalysis.model_dump
                { claim := claim, report_evidence := report_evidence,
                  web_evidence := web_evidence,
                  devils_advocate_summary := devils_summary,
                  advocate_summary := advocate_summary,
                  arbiter_score := score,
                  arbiter_justification := justification }

/-- How the batch's `asyncio.wait_for(asyncio.gather(...))` ends
(pipeline.py lines 114–125): all tasks completed; the 300 s global timeout
fired with `completedCount` claims already finished (the count the log line
reports); or another exception reached the `except Exception` handler. -/
inductive BatchOutcome where
  | completed : BatchOutcome
  | timedOut : Nat → BatchOutcome
  | errored : String → BatchOutcome

/-- `batch_process_claims` (pipeline.py lines 78–129): `results` is
initialized to `[]`; on completion it is assigned the gathered per-claim
dumps in task order; the `except asyncio.TimeoutError` handler only logs (the
comment says completed results are collected, but no code reassigns
`results`), as does the `except Exception` handler; `list(results)` is
returned. -/
def batch_process_claims (claims : List String) (envs : Nat → StageEnv)
    (outcome : BatchOutcome) : List (List (String × DumpVal)) :=
  match outcome with
  | .completed => claims.enum.map (fun ic => process_single_claim ic.2 (envs ic.1))
  | .timedOut _ => []
  | .errored _ => []

/-- The parameters of `batch_process_claims` (pipeline.py lines 78–85). -/
def batch_process_claims_params : List String :=
  ["claims", "report_text", "provider", "config", "max_workers", "on_progress"]

/-- The keyword arguments the app's own call site passes to
`batch_process_claims` (main.py lines 275–279). -/
def main_batch_call_kwargs : List String :=
  ["on_progress", "source_metadata"]

/-- The parameters of `run_arbiter` (arbiter.py lines 11–19), which does
accept `source_metadata`. -/
def run_arbiter_params : List String :=
  ["claim", "dev_adv", "adv", "provider", "config", "web_evidence", "source_metadata"]

/-- Python call semantics: passing a keyword argument that is not among the
callee's parameters raises `TypeError: got an unexpected keyword argument`. -/
def callHasUnknownKwarg (params kwargs : List String) : Bool :=
  kwargs.any (fun k => !(params.contains k))

/-! ## Batch scheduler concurrency (`app/pipeline.py`, lines 96–112)

`batch_process_claims` creates `asyncio.Semaphore(max_workers)` and each
`_bounded_process` task runs `process_single_claim` inside `async with
semaphore`.  The cooperative scheduler is modeled as a transition system: a
task acquires a permit to move from waiting to running and releases it when
its pipeline finishes.  `permits` is the semaphore's counter. -/

/-- A scheduler state: how many per-claim tasks are waiting on the semaphore,
running `process_single_claim`, or finished, and the semaphore's remaining
permit count. -/
structure SchedState where
  waiting : Nat
  running : Nat
  done : Nat
  permits : Nat
deriving DecidableEq

/-- The batch's initial state: all `n` tasks created and waiting, the
semaphore holding `max_workers = k` permits (pipeline.py lines 96 and 112). -/
def initSched (n k : Nat) : SchedState :=
  { waiting := n, running := 0, done := 0, permits := k }

/-- One scheduler transition: `acquire` is a waiting task entering
`async with semaphore` (possible only when a permit is available), `release`
is a running pipeline finishing and giving its permit back
(pipeline.py lines 105–106). -/
inductive SchedStep : SchedState → SchedState → Prop where
  | acquire (w r d p : Nat) :
      SchedStep { waiting := w + 1, running := r, done := d, permits := p + 1 }
        { waiting := w, running := r + 1, done := d, permits := p }
  | release (w r d p : Nat) :
      SchedStep { waiting := w, running := r + 1, done := d, permits := p }
        { waiting := w, running := r, done := d + 1, permits := p + 1 }

/-- The states one batch run with `n` claims and `max_workers = k` can
reach. -/
inductive SchedReachable (n k : Nat) : SchedState → Prop where
  | init : SchedReachable n k (initSched n k)
  | step {s t : SchedState} :
      SchedReachable n k s → SchedStep s t → SchedReachable n k t

/-! ## Extractor prompts (`app/agents/claim_extractor.py`, `app/agents/evidence_extractor.py`)

Both agents embed `{report[:5000]}` — the first 5000 characters of the report
— into their prompt and pass nothing else derived from the report to
`call_llm`. -/

/-- The claim-extraction prompt (claim_extractor.py lines 11–39) as a
function of the report text. -/
def run_factual_claim_extractor_prompt (report : String) : String :=
  "\n    Analyze the following report and extract a list of ALL distinct, checkable factual claims.\n\n    CRITICAL INSTRUCTION: EXTRACT VERIFIABLE FACTS\n    - Extract the SUBSTANCE of each factual claim as a standalone, verifiable assertion.\n    - Do NOT prefix claims with \"The report states\", \"The webpage says\", \"The article claims\", \"According to the document\", or any similar source-attribution framing.\n    - Each claim should read as a direct factual statement that can be independently checked.\n\n    FORMATTING RULES:\n    - WRONG: \"The webpage states that RCP8.5 is the highest emission scenario.\"\n    - RIGHT: \"RCP8.5 is the highest emission scenario among the Representative Concentration Pathways.\"\n    - WRONG: \"The article says New Zealand's average temperature has risen by 1.1°C.\"\n    - RIGHT: \"New Zealand's average temperature has risen by 1.1°C since 1909.\"\n\n    ADDITIONAL GUIDELINES:\n    - **Resolve Pronouns & Entities:** Replace all pronouns with the named entity they refer to. Include dates, locations, and specifics from the source text.\n    - **Split Attributed Claims:** If someone is quoted making a factual claim, create TWO claims:\n      1. Attribution: \"Donald Trump stated that dangerous criminals have entered the US.\"\n      2. Substance: \"Dangerous criminals from prisons and mental institutions have illegally entered the US.\"\n    - **Expand Abbreviations:** If the document defines an acronym, include the full term in the claim. E.g. \"Representative Concentration Pathway RCP4.5 could be realistic if immediate global action is taken to mitigate climate change.\"\n    - **Make Claims Search-Ready:** Include enough context (subject, entity, domain, timeframe) so each claim can be independently searched and verified.\n    - Do NOT extract meta-claims about the document itself (e.g. \"The page links to a PDF\" or \"The article discusses climate change\").\n    - Only extract claims that assert something factually verifiable about the real world.\n\n    Return ONLY a raw JSON list of strings. Do not use Markdown formatting.\n\n    Report:\n    " ++ report.take 5000 ++ "\n    "

/-- The internal-evidence prompt (evidence_extractor.py lines 10–16) as a
function of the report text and the claim. -/
def run_supporting_evidence_extractor_prompt (report claim : String) : String :=
  "\n    Given the report below, extract exact quotes that support the claim: \"" ++ claim ++ "\".\n    If no direct evidence exists in the text, say \"No direct evidence in report.\"\n    \n    Report:\n    " ++ report.take 5000 ++ "\n    "

/-! ## Theorems -/

/-- The dumped keys of every `ClaimAnalysis` record are the seven fields of
models.py, in declaration order. -/
theorem model_dump_keys (a : ClaimAnalysis) :
    dumpKeys a.model_dump =
      ["claim", "report_evidence", "web_evidence", "devils_advocate_summary",
       "advocate_summary", "arbiter_score", "arbiter_justification"] := rfl

/-- A record whose keys are the seven `ClaimAnalysis` fields carries no
`source_reliability_score` key. -/
theorem no_reliability_key (d : List (String × DumpVal))
    (h : dumpKeys d =
      ["claim", "report_evidence", "web_evidence", "devils_advocate_summary",
       "advocate_summary", "arbiter_score", "arbiter_justification"]) :
    "source_reliability_score" ∉ dumpKeys d := by
  rw [h]; decide

/-- A stage environment in which every agent call succeeds. -/
def allOkStageEnv : StageEnv :=
  { reportEvidence := .ok "", webEvidence := .ok "", devils := .ok "",
    advocate := .ok "", arbiter := .ok (6, .pstr "", "F", .pstr "") }

/-- C1: the claim says that on the happy path Stage 3 populates the returned
record's `arbiter_score` and `source_reliability_score` fields.  The code
cannot do this: `run_arbiter` returns a 4-tuple (arbiter.py line 100) while
pipeline.py line 59 unpacks it into two targets, so even when every stage
succeeds the `ValueError` lands in the `except` handler and the returned
record is the error record; moreover `ClaimAnalysis` (models.py) has no
`source_reliability_score` field at all, so no returned record can carry
one. -/
theorem c1_stage3_unpack_failure : ∀ (claim re we dv ad : String)
    (arb : Int × PyVal × String × PyVal),
    process_single_claim claim
        { reportEvidence := .ok re, webEvidence := .ok we, devils := .ok dv,
          advocate := .ok ad, arbiter := .ok arb } =
      (errorRecord claim "too many values to unpack (expected 2)").model_dump ∧
    "source_reliability_score" ∉ dumpKeys (process_single_claim claim
        { reportEvidence := .ok re, webEvidence := .ok we, devils := .ok dv,
          advocate := .ok ad, arbiter := .ok arb }) := by
  intro claim re we dv ad arb
  exact ⟨rfl, no_reliability_key _ rfl⟩

/-- C2: the claim says that when the 300 s batch timeout fires with `k` of
`N` claims completed, the scheduler returns exactly the `k` completed
records.  The code returns the empty list instead: `results` is initialized
to `[]` and the `except asyncio.TimeoutError` handler (pipeline.py
lines 119–122) only logs — its own comment says completed results are
collected, but nothing reassigns `results` — so `list(results)` is `[]`.
In the spec's 3-of-5 scenario the scheduler hands back 0 records, not 3. -/
theorem c2_timeout_returns_empty_list :
    (∀ (claims : List String) (envs : Nat → StageEnv) (k : Nat),
        batch_process_claims claims envs (BatchOutcome.timedOut k) = []) ∧
    (batch_process_claims ["a", "b", "c", "d", "e"] (fun _ => allOkStageEnv)
        (BatchOutcome.timedOut 3)).length = 0 :=
  ⟨fun _ _ _ => rfl, rfl⟩

/-- C3: the claim says every record is either fully populated or an error
record with score 6, reliability F and a `Processing Error:`-prefixed
justification, and that a batch of N claims yields N records.  In the code
every `process_single_claim` result is the error record (the arbiter-tuple
unpacking of pipeline.py line 59 raises on the happy path, and any stage
exception lands in the same handler), with score 6 and the prefixed
justification, and a completed batch has one record per claim — but the
dumped record's keys are exactly the seven `ClaimAnalysis` fields: there is
no `source_reliability_score` key, so the error record cannot carry an F
grade (main.py compensates with `result.get("source_reliability_score",
"F")`). -/
theorem c3_error_record_shape : ∀ (claim : String) (env : StageEnv),
    (∃ msg, process_single_claim claim env = (errorRecord claim msg).model_dump ∧
      (errorRecord claim msg).arbiter_score = 6 ∧
      (errorRecord claim msg).arbiter_justification = "Processing Error:" ++ (" " ++ msg)) ∧
    dumpKeys (process_single_claim claim env) =
      ["claim", "report_evidence", "web_evidence", "devils_advocate_summary",
       "advocate_summary", "arbiter_score", "arbiter_justification"] ∧
    "source_reliability_score" ∉ dumpKeys (process_single_claim claim env) ∧
    (∀ (claims : List String) (envs : Nat → StageEnv),
        (batch_process_claims claims envs BatchOutcome.completed).length = claims.length) := by
  intro claim env
  obtain ⟨re, we, dv, ad, arb⟩ := env
  have hbatch : ∀ (claims : List String) (envs : Nat → StageEnv),
      (batch_process_claims claims envs BatchOutcome.completed).length = claims.length := by
    intro claims envs
    simp [batch_process_claims]
  have hjust : ∀ m : String,
      (errorRecord claim m).arbiter_justification = "Processing Error:" ++ (" " ++ m) := by
    intro m
    rw [← String.append_assoc]
    rfl
  cases re with
  | error e => exact ⟨⟨e, rfl, rfl, hjust e⟩, rfl, no_reliability_key _ rfl, hbatch⟩
  | ok re =>
    cases we with
    | error e => exact ⟨⟨e, rfl, rfl, hjust e⟩, rfl, no_reliability_key _ rfl, hbatch⟩
    | ok we =>
      cases dv with
      | error e => exact ⟨⟨e, rfl, rfl, hjust e⟩, rfl, no_reliability_key _ rfl, hbatch⟩
      | ok dv =>
        cases ad with
        | error e => exact ⟨⟨e, rfl, rfl, hjust e⟩, rfl, no_reliability_key _ rfl, hbatch⟩
        | ok ad =>
          cases arb with
          | error e => exact ⟨⟨e, rfl, rfl, hjust e⟩, rfl, no_reliability_key _ rfl, hbatch⟩
          | ok arb =>
            exact ⟨⟨"too many values to unpack (expected 2)", rfl, rfl,
              hjust "too many values to unpack (expected 2)"⟩, rfl,
              no_reliability_key _ rfl, hbatch⟩

/-- C4: the claim says the batch entry point accepts an optional
`source_metadata` argument.  `batch_process_claims`'s parameter list
(pipeline.py lines 78–85) has no such parameter, while the app's own call
site (main.py lines 275–279) passes `source_metadata=` — a call that raises
`TypeError: got an unexpected keyword argument` under Python call semantics —
and `run_arbiter`, the intended consumer, does accept it. -/
theorem c4_source_metadata_not_accepted :
    "source_metadata" ∉ batch_process_claims_params ∧
    "source_metadata" ∈ run_arbiter_params ∧
    callHasUnknownKwarg batch_process_claims_params main_batch_call_kwargs = true := by
  refine ⟨by decide, by decide, by decide⟩

/-- C6: for every outcome of parsing the arbiter's model response — any JSON
value, including non-objects and out-of-range score or reliability values,
or a raised parse exception — the extracted score lies in 1..6 and the
reliability grade in A..F; every failure path returns the default tuple
(score 6, grade F) with a justification naming the parsing failure, and the
full response handling is exactly this extraction applied to the fence-
stripped response. -/
theorem c6_arbiter_score_and_reliability_domain :
    (∀ outcome : Except String PyVal,
        1 ≤ (arbiterFromParse outcome).1 ∧ (arbiterFromParse outcome).1 ≤ 6 ∧
        (arbiterFromParse outcome).2.2.1 ∈ (["A", "B", "C", "D", "E", "F"] : List String)) ∧
    (∀ e, arbiterFromParse (Except.error e) =
        (6, PyVal.pstr "Error parsing Arbiter response", "F", PyVal.pstr "")) ∧
    (∀ loads response,
        arbiterHandleResponse loads response =
          arbiterFromParse (loads (cleanArbiterResponse response))) := by
  have hfail : (1 : Int) ≤ arbiterParseFailure.1 ∧ arbiterParseFailure.1 ≤ 6 ∧
      arbiterParseFailure.2.2.1 ∈ (["A", "B", "C", "D", "E", "F"] : List String) :=
    ⟨by decide, by decide, by decide⟩
  refine ⟨?_, fun e => rfl, fun loads response => rfl⟩
  intro outcome
  cases outcome with
  | error e => exact hfail
  | ok data =>
    cases h1 : data.get "score" (PyVal.pint 6) with
    | error e => simp only [arbiterFromParse, h1]; exact hfail
    | ok scoreV =>
      cases h2 : pyToInt scoreV with
      | error e => simp only [arbiterFromParse, h1, h2]; exact hfail
      | ok score0 =>
        cases h3 : data.get "justification" (PyVal.pstr "Parse Error") with
        | error e => simp only [arbiterFromParse, h1, h2, h3]; exact hfail
        | ok just =>
          cases h4 : data.get "source_reliability_score" (PyVal.pstr "F") with
          | error e => simp only [arbiterFromParse, h1, h2, h3, h4]; exact hfail
          | ok relV =>
            cases h5 : data.get "source_reliability_justification" (PyVal.pstr "") with
            | error e => simp only [arbiterFromParse, h1, h2, h3, h4, h5]; exact hfail
            | ok relJust =>
              simp only [arbiterFromParse, h1, h2, h3, h4, h5]
              refine ⟨?_, ?_, ?_⟩
              · split_ifs with h
                · decide
                · omega
              · split_ifs with h
                · decide
                · omega
              · split_ifs with h
                · simpa using h
                · decide

/-- Semaphore invariant of the batch scheduler: along every reachable state,
the tasks inside the semaphore and the remaining permits together account
for exactly the `max_workers` permits the semaphore was created with. -/
theorem schedPermitInvariant {n k : Nat} {s : SchedState}
    (h : SchedReachable n k s) : s.running + s.permits = k := by
  induction h with
  | init => simp [initSched]
  | step _ hstep ih =>
    cases hstep <;> simp_all <;> omega

/-- C9: with `max_workers = k`, at most `k` per-claim pipelines run
simultaneously in every state the batch scheduler can reach: each
`_bounded_process` task enters `process_single_claim` only by taking one of
the `k` semaphore permits (pipeline.py lines 96 and 103–106), so the permit
accounting bounds the running count. -/
theorem c9_bounded_concurrency : ∀ (n k : Nat) (s : SchedState),
    SchedReachable n k s → s.running ≤ k := by
  intro n k s h
  have := schedPermitInvariant h
  omega

/-- Witness for C9: with five claims and `max_workers = 2`, the state after
one acquisition is reachable and runs one pipeline, within the bound. -/
theorem c9_bounded_concurrency_witness :
    ({ waiting := 4, running := 1, done := 0, permits := 1 } : SchedState).running ≤ 2 :=
  c9_bounded_concurrency 5 2 _
    (SchedReachable.step SchedReachable.init (SchedStep.acquire 4 0 0 1))

/-- C10: both extraction prompts embed only `report[:5000]`: any two reports
sharing their first 5000 characters produce identical claim-extraction and
internal-evidence prompts, so nothing beyond that prefix reaches the model. -/
theorem c10_prompts_truncate_report_at_5000 : ∀ (r1 r2 claimText : String),
    r1.take 5000 = r2.take 5000 →
      run_factual_claim_extractor_prompt r1 = run_factual_claim_extractor_prompt r2 ∧
      run_supporting_evidence_extractor_prompt r1 claimText =
        run_supporting_evidence_extractor_prompt r2 claimText := by
  intro r1 r2 claimText h
  unfold run_factual_claim_extractor_prompt run_supporting_evidence_extractor_prompt
  rw [h]
  exact ⟨rfl, rfl⟩

/-- Witness for C10: the theorem applied at a concrete report and claim. -/
theorem c10_prompts_truncate_witness :
    run_factual_claim_extractor_prompt "The sky is blue." =
      run_factual_claim_extractor_prompt "The sky is blue." ∧
    run_supporting_evidence_extractor_prompt "The sky is blue." "The sky is blue." =
      run_supporting_evidence_extractor_prompt "The sky is blue." "The sky is blue." :=
  c10_prompts_truncate_report_at_5000 "The sky is blue." "The sky is blue."
    "The sky is blue." rfl

/-- C5 (amended): the fallback to the raw claim text fires exactly when the
query-derivation call *raises* — the dispatched queries are then the raw
claim text alone — while a *returned* response (including a gateway error
string, since `call_llm` fails soft) becomes the query after stripping and
double-quote removal. -/
theorem c5_query_fallback_on_exception_only : ∀ (claim e resp : String),
    deriveSearchQuery claim (Except.error e) = claim ∧
    dispatchedQueries claim (Except.error e) = [claim] ∧
    deriveSearchQuery claim (Except.ok resp) = pyReplace (pyStrip resp) "\"" "" := by
  intro claim e resp
  refine ⟨rfl, ?_, rfl⟩
  unfold dispatchedQueries queryCandidates deriveSearchQuery
  rw [if_neg]
  · rfl
  · rintro ⟨-, hne⟩
    exact hne rfl

/-- A concrete environment for the C5 counterexample (its contents are
irrelevant: the gateway fails before consulting any external call). -/
def c5Env : LlmEnv :=
  { gemini := .success "", azureResponses := .success "", azureChat := .success "" }

/-- Counterexample to C5 as stated: with an Azure provider whose required
configuration is missing, the query-derivation `call_llm` invocation fails —
but it fails *soft*, returning the configuration-error string instead of
raising, so `run_web_search_agent` uses that error message (not the raw
claim text) as the primary query it dispatches to both search backends. -/
theorem c5_error_string_becomes_query :
    call_llm (searchQueryPrompt "The Eiffel Tower is in Paris") "Microsoft Azure" [] c5Env =
      "Error: Missing Azure configuration details." ∧
    dispatchedQueries "The Eiffel Tower is in Paris"
        (Except.ok (call_llm (searchQueryPrompt "The Eiffel Tower is in Paris")
          "Microsoft Azure" [] c5Env)) =
      ["Error: Missing Azure configuration details.", "The Eiffel Tower is in Paris"] ∧
    ("Error: Missing Azure configuration details." : String) ≠
      "The Eiffel Tower is in Paris" := by
  refine ⟨by decide, by decide, by decide⟩

/-- Splitting a known tag off a concatenation: if `p` ends in `r` past the
tag `q`, then `p ++ s` also starts with `q`. -/
theorem tag_append (p q r s : String) (h : p = q ++ r) : ∃ t, p ++ s = q ++ t :=
  ⟨r ++ s, by rw [h, String.append_assoc]⟩

/-- Every Chat Completions fallback result is a success text of the
environment or an error-tagged string. -/
theorem chatFallback_cases (env : LlmEnv) :
    llmErrorTagged (azureChatFallback env) ∨ llmSuccessText env (azureChatFallback env) := by
  unfold azureChatFallback
  cases hc : env.azureChat with
  | success u => exact Or.inr (Or.inr (Or.inr hc))
  | timeout => exact Or.inl (Or.inr (Or.inr ⟨" Request timed out after 30s", by decide⟩))
  | failure e =>
      exact Or.inl (Or.inr (Or.inr (tag_append "Azure Error: " "Azure Error:" " " e (by decide))))

/-- C8: the gateway is a total function into strings — the embedding catches
every modeled failure mode as llm.py does — and every result is either a
text produced by a successful external call or an error string carrying one
of the recognizable prefixes (`Error:`, `Gemini Error:`, `Azure Error:`);
in particular a missing required Azure option is surfaced as the
configuration-error string, never as an exception. -/
theorem c8_gateway_fail_soft : ∀ (prompt provider : String) (config : LlmConfig) (env : LlmEnv),
    (llmErrorTagged (call_llm prompt provider config env) ∨
      llmSuccessText env (call_llm prompt provider config env)) ∧
    (azureRequiredOk config = false →
      call_llm prompt "Microsoft Azure" config env =
        "Error: Missing Azure configuration details.") := by
  intro prompt provider config env
  constructor
  · unfold call_llm
    split_ifs with h1 h2
    · unfold call_gemini
      split_ifs with hk
      · cases hg : env.gemini with
        | success t => exact Or.inr (Or.inl hg)
        | timeout =>
            exact Or.inl (Or.inr (Or.inl ⟨" Request timed out after 30s", by decide⟩))
        | failure e =>
            exact Or.inl (Or.inr (Or.inl (tag_append "Gemini Error: " "Gemini Error:" " " e (by decide))))
      · exact Or.inl (Or.inl ⟨" Gemini API Key missing.", by decide⟩)
    · unfold call_azure
      split_ifs with hreq
      · cases ha : env.azureResponses with
        | success t =>
          dsimp only
          split_ifs with ht
          · exact Or.inr (Or.inr (Or.inl ⟨t, ha, rfl, ht⟩))
          · exact chatFallback_cases env
        | timeout =>
            dsimp only
            exact Or.inl (Or.inr (Or.inr ⟨" Request timed out after 30s", by decide⟩))
        | failure e =>
          dsimp only
          split_ifs with hgpt
          · exact Or.inl (Or.inr (Or.inr
              ⟨" GPT-5 deployment requires AZURE_OPENAI_API_VERSION=2025-03-01-preview or later.",
               by decide⟩))
          · exact chatFallback_cases env
      · exact Or.inl (Or.inl ⟨" Missing Azure configuration details.", by decide⟩)
    · exact Or.inl (Or.inl ⟨" Invalid Provider", by decide⟩)
  · intro h
    unfold call_llm
    rw [if_neg (by decide), if_pos rfl]
    unfold call_azure
    rw [if_pos (by simp [h])]

/-- Gluing lemma: running the flattened loop over one task's results followed
by a tail is the inner loop on those results followed by the flattened loop
on the tail, with the same cap check the outer loop performs. -/
theorem aggFlat_inner_glue (label : String) (rs : List SearchResult) :
    ∀ (tail : List (String × SearchResult)) (seen acc : List String),
      acc.length < MAX_RESULTS_RETURNED →
      aggFlat (rs.map (fun r => (label, r)) ++ tail) seen acc =
        (if MAX_RESULTS_RETURNED ≤ (aggInner label rs seen acc).2.length
         then (aggInner label rs seen acc).2
         else aggFlat tail (aggInner label rs seen acc).1 (aggInner label rs seen acc).2) := by
  induction rs with
  | nil =>
    intro tail seen acc hlt
    simp only [List.map_nil, List.nil_append, aggInner]
    rw [if_neg (by omega)]
  | cons r rest ih =>
    intro tail seen acc hlt
    simp only [List.map_cons, List.cons_append, aggFlat, aggInner]
    by_cases hc : r.url ≠ "" ∧ r.url ∉ seen
    · simp only [if_pos hc]
      by_cases hcap : MAX_RESULTS_RETURNED ≤ (acc ++ [formatResult label r]).length
      · simp only [if_pos hcap]
      · simp only [if_neg hcap]
        exact ih tail (r.url :: seen) (acc ++ [formatResult label r]) (by omega)
    · simp only [if_neg hc]
      exact ih tail seen acc hlt

/-- The two-loop aggregation of the source equals the single loop over the
flattened discovery-order list. -/
theorem aggOuter_eq_flat : ∀ (tasks : List (Except String TaskResult)) (seen acc : List String),
    acc.length < MAX_RESULTS_RETURNED →
    aggOuter tasks seen acc = aggFlat (flattenTasks tasks) seen acc := by
  intro tasks
  induction tasks with
  | nil => intro seen acc _; rfl
  | cons t rest ih =>
    intro seen acc h
    cases t with
    | error e =>
      simp only [aggOuter, flattenTasks]
      exact ih seen acc h
    | ok lqr =>
      obtain ⟨label, q, rs⟩ := lqr
      simp only [aggOuter, flattenTasks]
      rw [aggFlat_inner_glue label rs (flattenTasks rest) seen acc h]
      by_cases hcap : MAX_RESULTS_RETURNED ≤ (aggInner label rs seen acc).2.length
      · simp only [if_pos hcap]
      · simp only [if_neg hcap]
        exact ih (aggInner label rs seen acc).1 (aggInner label rs seen acc).2 (by omega)

/-- The single loop is the first-seen URL deduplication of its input,
truncated at the remaining budget and rendered. -/
theorem aggFlat_spec : ∀ (l : List (String × SearchResult)) (seen acc : List String),
    acc.length < MAX_RESULTS_RETURNED →
    aggFlat l seen acc =
      acc ++ ((dedupByUrl seen l).take (MAX_RESULTS_RETURNED - acc.length)).map
        (fun x => formatResult x.1 x.2) := by
  intro l
  induction l with
  | nil => intro seen acc _; simp [aggFlat, dedupByUrl]
  | cons p rest ih =>
    obtain ⟨label, r⟩ := p
    intro seen acc h
    simp only [aggFlat, dedupByUrl]
    by_cases hc : r.url ≠ "" ∧ r.url ∉ seen
    · simp only [if_pos hc]
      by_cases hcap : MAX_RESULTS_RETURNED ≤ (acc ++ [formatResult label r]).length
      · simp only [if_pos hcap]
        have h1 : MAX_RESULTS_RETURNED - acc.length = 1 := by
          simp only [List.length_append, List.length_cons, List.length_nil] at hcap
          omega
        rw [h1]
        simp
      · simp only [if_neg hcap]
        rw [ih (r.url :: seen) (acc ++ [formatResult label r]) (by omega)]
        have h2 : MAX_RESULTS_RETURNED - acc.length =
            (MAX_RESULTS_RETURNED - (acc ++ [formatResult label r]).length) + 1 := by
          simp only [List.length_append, List.length_cons, List.length_nil]
          omega
        rw [h2, List.take_succ_cons]
        simp
    · simp only [if_neg hc]
      exact ih seen acc h

/-- The deduplicated list's URLs are distinct and disjoint from the seen
set. -/
theorem dedupByUrl_urls_nodup : ∀ (l : List (String × SearchResult)) (seen : List String),
    ((dedupByUrl seen l).map (fun x => x.2.url)).Nodup ∧
    ∀ u ∈ (dedupByUrl seen l).map (fun x => x.2.url), u ∉ seen := by
  intro l
  induction l with
  | nil => intro seen; simp [dedupByUrl]
  | cons p rest ih =>
    obtain ⟨label, r⟩ := p
    intro seen
    simp only [dedupByUrl]
    by_cases hc : r.url ≠ "" ∧ r.url ∉ seen
    · simp only [if_pos hc]
      obtain ⟨hnd, hns⟩ := ih (r.url :: seen)
      simp only [List.map_cons, List.nodup_cons]
      refine ⟨⟨?_, hnd⟩, ?_⟩
      · intro hmem
        exact hns _ hmem (List.mem_cons_self _ _)
      · intro u hu
        rcases List.mem_cons.mp hu with hu | hu
        · exact hu ▸ hc.2
        · intro hseen
          exact hns u hu (List.mem_cons_of_mem _ hseen)
    · simp only [if_neg hc]
      exact ih seen

/-- C7: the source's aggregation loop produces exactly the first-seen-wins
URL deduplication of the gathered results in discovery (per-task insertion)
order, truncated at `MAX_RESULTS_RETURNED = 12` and rendered one line per
result; consequently it emits at most 12 entries and no URL twice. -/
theorem c7_dedup_order_and_cap : ∀ (tasks : List (Except String TaskResult)),
    aggregateSearchResults tasks =
      ((dedupByUrl [] (flattenTasks tasks)).take MAX_RESULTS_RETURNED).map
        (fun x => formatResult x.1 x.2) ∧
    (aggregateSearchResults tasks).length ≤ MAX_RESULTS_RETURNED ∧
    (((dedupByUrl [] (flattenTasks tasks)).take MAX_RESULTS_RETURNED).map
        (fun x => x.2.url)).Nodup := by
  intro tasks
  have h0 : ([] : List String).length < MAX_RESULTS_RETURNED := by decide
  have heq : aggregateSearchResults tasks =
      ((dedupByUrl [] (flattenTasks tasks)).take MAX_RESULTS_RETURNED).map
        (fun x => formatResult x.1 x.2) := by
    unfold aggregateSearchResults
    rw [aggOuter_eq_flat tasks [] [] h0, aggFlat_spec (flattenTasks tasks) [] [] h0]
    simp
  refine ⟨heq, ?_, ?_⟩
  · rw [heq]
    calc (((dedupByUrl [] (flattenTasks tasks)).take MAX_RESULTS_RETURNED).map
          (fun x => formatResult x.1 x.2)).length
        = ((dedupByUrl [] (flattenTasks tasks)).take MAX_RESULTS_RETURNED).length := by
          rw [List.length_map]
      _ ≤ MAX_RESULTS_RETURNED := List.length_take_le _ _
  · rw [List.map_take]
    exact List.Nodup.sublist (List.take_sublist _ _)
      (dedupByUrl_urls_nodup (flattenTasks tasks) []).1
